import Mathlib

/-!
# go-rest-api: the comment pipeline (transport handler, service, store)

A shallow embedding of the three source files

* `internal/comment/comment.go`        (package `comment`: sentinels, `Store`, `Service`)
* `internal/db/comment.go`             (package `db`: `CommentRow`, row translation, `GetComment`)
* `internal/transport/http/comment.go` (package `http`: the five handlers)

Conventions of the embedding.

* A Go `error` is a `GoError`; a nil error is `none : Option GoError`.
* A Go multi-value return `(T, error)` is the pair `T × Option GoError`: both components are
  kept, since a callee may hand back a non-zero `T` together with an error.
* A Go slice is the `List` of its elements; the nil slice and the empty slice are both `[]`.
* Side effects are explicit state passing: every operation is a function from a `World` to a
  result paired with the next `World`. The world carries the state hidden behind an interface
  (database contents and the like) and the lines written to the process-wide logger.
* Library calls that are not part of the repository (database driver, JSON codec) are parameters.
-/

set_option autoImplicit false

namespace GoRestApi

/-! ## Go errors (`errors`, `fmt.Errorf`) -/

/-- A Go error value.
`new origin text` is a value made by `errors.New(text)`; such values are compared by identity in
Go, and `origin` names the place that made it (for a package-level sentinel, its variable).
`errorf before inner after` is the value of `fmt.Errorf` with a single `%w` verb: `inner` is the
wrapped error, `before` and `after` are the literal text around the verb. -/
inductive GoError where
  | new (origin : String) (text : String)
  | errorf (before : String) (inner : GoError) (after : String)
  deriving DecidableEq, Repr

namespace GoError

/-- The method `Error()`. -/
def Error : GoError → String
  | .new _ text => text
  | .errorf before inner after => before ++ inner.Error ++ after

/-- The method `Unwrap()`, where there is one. -/
def Unwrap : GoError → Option GoError
  | .new _ _ => none
  | .errorf _ inner _ => some inner

end GoError

namespace errors

/-- The function `errors.Is(err, target)`: walk the `Unwrap` chain of `err`, comparing each link
with `target`. -/
def Is : GoError → GoError → Bool
  | .new origin text, target => decide (GoError.new origin text = target)
  | .errorf before inner after, target =>
      decide (GoError.errorf before inner after = target) || Is inner target

end errors

namespace sql

/-- The sentinel `sql.ErrNoRows` of `database/sql`, returned by `Row.Scan` when the query
selected no row. -/
def ErrNoRows : GoError := .new "sql.ErrNoRows" "sql: no rows in result set"

/-- The type `sql.NullString` of `database/sql`: two independent fields. -/
structure NullString where
  String : String
  Valid : Bool
  deriving DecidableEq, Repr

/-- What `(*sql.NullString).Scan` stores for a column value: NULL gives the empty text with
`Valid = false`, a text gives that text with `Valid = true`. -/
def scanNullString : Option String → NullString
  | none => { String := "", Valid := false }
  | some s => { String := s, Valid := true }

end sql

/-! ## World: state behind the interfaces, and the logger -/

namespace context

/-- The type `context.Context`. The files at hand never inspect a context, they only hand it on,
so a context is an uninterpreted token. -/
structure Context where
  name : String
  deriving DecidableEq, Repr

end context

open context (Context)

/-- Severity of a line written through logrus. -/
inductive LogLevel where
  | Info
  | Error
  deriving DecidableEq, Repr

/-- One line written to the process-wide logrus logger. -/
structure LogEntry where
  level : LogLevel
  msg : String
  deriving DecidableEq, Repr

/-- The state every operation reads and writes: `state` is whatever lives behind the interface
in use (for a store, the database), `log` is the output of the global logger, oldest first. -/
structure World (σ : Type) where
  state : σ
  log : List LogEntry
  deriving DecidableEq, Repr

/-- Append one line to the logger output. -/
def World.logLine {σ : Type} (wd : World σ) (level : LogLevel) (msg : String) : World σ :=
  { wd with log := wd.log ++ [{ level := level, msg := msg }] }

/-! ## Package `comment` (internal/comment/comment.go) -/

namespace comment

def ErrFetchingComment : GoError := .new "comment.ErrFetchingComment" "could not fetch comment by ID"
def ErrPostingComment : GoError := .new "comment.ErrPostingComment" "could not post comment by ID"
def ErrUpdatingComment : GoError := .new "comment.ErrUpdatingComment" "could not update comment"
def ErrNoCommentFound : GoError := .new "comment.ErrNoCommentFound" "no comment found"
def ErrDeletingComment : GoError := .new "comment.ErrDeletingComment" "could not delete comment"
def ErrNotImplemented : GoError := .new "comment.ErrNotImplemented" "not implemented"

/-- The struct `Comment`. -/
structure Comment where
  ID : String
  Slug : String
  Body : String
  Author : String
  deriving DecidableEq, Repr

/-- The zero value `Comment{}`. -/
def Comment.zero : Comment := { ID := "", Slug := "", Body := "", Author := "" }

/-- The interface `Store`: any implementation, with whatever state `σ` it keeps. -/
structure Store (σ : Type) where
  GetComments : Context → World σ → (List Comment × Option GoError) × World σ
  GetComment : Context → String → World σ → (Comment × Option GoError) × World σ
  PostComment : Context → Comment → World σ → (Comment × Option GoError) × World σ
  UpdateComment : Context → String → Comment → World σ → (Comment × Option GoError) × World σ
  DeleteComment : Context → String → World σ → Option GoError × World σ
  Ping : Context → World σ → Option GoError × World σ

/-- The struct `Service`. -/
structure Service (σ : Type) where
  Store : comment.Store σ

/-- The constructor `NewService`. -/
def NewService {σ : Type} (store : Store σ) : Service σ :=
  { Store := store }

namespace Service

variable {σ : Type}

/-- The method `(*Service).GetComments`. -/
def GetComments (s : Service σ) (ctx : Context) (wd : World σ) :
    (List Comment × Option GoError) × World σ :=
  match s.Store.GetComments ctx wd with
  | ((_, some err), wd1) =>
      (([], some ErrFetchingComment),
        wd1.logLine .Error ("an error occured fetching the comments: " ++ err.Error))
  | ((cmts, none), wd1) => ((cmts, none), wd1)

/-- The method `(*Service).GetComment`. -/
def GetComment (s : Service σ) (ctx : Context) (ID : String) (wd : World σ) :
    (Comment × Option GoError) × World σ :=
  match s.Store.GetComment ctx ID wd with
  | ((_, some err), wd1) =>
      ((Comment.zero, some ErrFetchingComment),
        wd1.logLine .Error ("an error occured fetching the comment: " ++ err.Error))
  | ((cmt, none), wd1) => ((cmt, none), wd1)

/-- The method `(*Service).PostComment`. -/
def PostComment (s : Service σ) (ctx : Context) (cmt : Comment) (wd : World σ) :
    (Comment × Option GoError) × World σ :=
  match s.Store.PostComment ctx cmt wd with
  | ((_, some err), wd1) =>
      ((Comment.zero, some ErrPostingComment),
        wd1.logLine .Error ("an error occurred adding the comment: " ++ err.Error))
  | ((insertedCmt, none), wd1) => ((insertedCmt, none), wd1)

/-- The method `(*Service).UpdateComment`. -/
def UpdateComment (s : Service σ) (ctx : Context) (ID : String) (newComment : Comment)
    (wd : World σ) : (Comment × Option GoError) × World σ :=
  match s.Store.UpdateComment ctx ID newComment wd with
  | ((_, some err), wd1) =>
      ((Comment.zero, some ErrUpdatingComment),
        wd1.logLine .Error ("an error occurred updating the comment: " ++ err.Error))
  | ((cmt, none), wd1) => ((cmt, none), wd1)

/-- The method `(*Service).DeleteComment`. -/
def DeleteComment (s : Service σ) (ctx : Context) (ID : String) (wd : World σ) :
    Option GoError × World σ :=
  s.Store.DeleteComment ctx ID wd

end Service

end comment

/-! ## Package `db` (internal/db/comment.go) -/

namespace db

open comment (Comment)

def ErrNotImplemented : GoError := .new "db.ErrNotImplemented" "not implemented"

/-- The struct `CommentRow`. -/
structure CommentRow where
  ID : String
  Slug : sql.NullString
  Body : sql.NullString
  Author : sql.NullString
  deriving DecidableEq, Repr

/-- The zero value of `CommentRow`, as declared by `var cmtRow CommentRow`. -/
def CommentRow.zero : CommentRow :=
  { ID := "", Slug := ⟨"", false⟩, Body := ⟨"", false⟩, Author := ⟨"", false⟩ }

def convertCommentRowToComment (c : CommentRow) : Comment :=
  { ID := c.ID
    Slug := c.Slug.String
    Author := c.Author.String
    Body := c.Body.String }

/-- One pass of the `for _, c := range cmts` body: build `value`, append it to `comments`. -/
def convertCommentRowToComments.step (comments : List Comment) (c : CommentRow) : List Comment :=
  let value : Comment :=
    { ID := c.ID
      Slug := c.Slug.String
      Author := c.Author.String
      Body := c.Body.String }
  comments ++ [value]

/-- The function `convertCommentRowToComments`: start from `make([]comment.Comment, 0)` and run
the loop body over the rows in order. -/
def convertCommentRowToComments (cmts : List CommentRow) : List Comment :=
  cmts.foldl convertCommentRowToComments.step []

/-- The row that `row.Scan(&cmtRow.ID, &cmtRow.Slug, &cmtRow.Body, &cmtRow.Author)` leaves in
the zero `CommentRow` of `GetComment` and `GetComments`, for a result row whose id column holds
`id` and whose slug, body and author columns hold the given values, `none` standing for NULL.
Each nullable field is filled by `(*sql.NullString).Scan`. Rows reach the two translation
functions only this way. -/
def scanCommentRow (id : String) (slug body author : Option String) : CommentRow :=
  { ID := id
    Slug := sql.scanNullString slug
    Body := sql.scanNullString body
    Author := sql.scanNullString author }

/-- The part of the `Client` field of `Database` (the struct itself is declared in a file that is
not at hand) that `Database.GetComment` uses. `ExecContext ctx query` gives the error of the
call. `QueryRowScan ctx query args dest` stands for `QueryRowContext(ctx, query, args...)`
followed by `row.Scan` into the fields of `dest`: it gives the row as `Scan` left it and the
error `Scan` returned. -/
structure Client (σ : Type) where
  ExecContext : Context → String → World σ → Option GoError × World σ
  QueryRowScan : Context → String → List String → CommentRow → World σ →
    (CommentRow × Option GoError) × World σ

/-- The struct `Database`, as far as the methods at hand use it. -/
structure Database (σ : Type) where
  Client : db.Client σ

/-- The method `(*Database).GetComment`. -/
def Database.GetComment {σ : Type} (d : Database σ) (ctx : Context) (uuid : String)
    (wd : World σ) : (Comment × Option GoError) × World σ :=
  match d.Client.ExecContext ctx "SELECT pg_sleep(1)" wd with
  | (some err, wd1) => ((Comment.zero, some err), wd1)
  | (none, wd1) =>
      match d.Client.QueryRowScan ctx
          "SELECT id, slug, body, author \n\t\tFROM comments \n\t\tWHERE id = $1" [uuid]
          CommentRow.zero wd1 with
      | ((_, some err), wd2) =>
          ((Comment.zero,
              some (.errorf "an error occurred fetching a comment by uuid: " err "")), wd2)
      | ((cmtRow, none), wd2) => ((convertCommentRowToComment cmtRow, none), wd2)

end db

/-! ## Libraries used by the transport layer -/

namespace validator

/-- The call `validator.New().Struct(v)` of go-playground/validator for a struct `v` named
`typeName` whose fields, listed as (name, value), are all strings tagged `validate:"required"`.
A string field violates `required` exactly when it is the empty string. The result is nil when no
field fails, and otherwise a `ValidationErrors` value with one line per failing field. -/
def Struct (typeName : String) (fields : List (String × String)) : Option GoError :=
  match fields.filter (fun f => decide (f.2 = "")) with
  | [] => none
  | f :: fs =>
      some (.new "validator.ValidationErrors"
        (String.intercalate "\n" ((f :: fs).map fun g =>
          "Key: \x27" ++ typeName ++ "." ++ g.1 ++ "\x27 Error:Field validation for \x27" ++ g.1
            ++ "\x27 failed on the \x27required\x27 tag")))

end validator

/-! ## Package `http` (internal/transport/http/comment.go) -/

namespace http

open comment (Comment)

def StatusOK : Nat := 200
def StatusBadRequest : Nat := 400
def StatusNotFound : Nat := 404
def StatusInternalServerError : Nat := 500

/-- The `http.ResponseWriter` handed to a handler, as the record of what has been done with it:
`status` is the code of the header once it has been written (by `WriteHeader`, or by the first
`Write`), `body` is everything written so far. Writing to it does not fail. -/
structure ResponseWriter where
  status : Option Nat
  body : String
  deriving DecidableEq, Repr

namespace ResponseWriter

/-- A writer on which nothing has been written yet. -/
def fresh : ResponseWriter := { status := none, body := "" }

/-- The method `WriteHeader(code)`: only the first header written counts. -/
def WriteHeader (w : ResponseWriter) (code : Nat) : ResponseWriter :=
  match w.status with
  | some _ => w
  | none => { w with status := some code }

/-- The method `Write(bytes)`: writes the header with 200 first when none was written. -/
def Write (w : ResponseWriter) (bytes : String) : ResponseWriter :=
  { status := (w.WriteHeader StatusOK).status, body := w.body ++ bytes }

/-- The status line the server sends once the handler has returned: the header written, or 200
when the handler wrote none. -/
def sentStatus (w : ResponseWriter) : Nat :=
  w.status.getD StatusOK

end ResponseWriter

/-- What a handler reads of `*http.Request`: `r.Context()`, the route variables `mux.Vars(r)`
and the bytes of `r.Body`. -/
structure Request where
  ctx : Context
  vars : List (String × String)
  Body : String
  deriving DecidableEq, Repr

/-- The lookup `mux.Vars(r)[key]`; a key that is absent gives the empty string. -/
def Request.var (r : Request) (key : String) : String :=
  (r.vars.lookup key).getD ""

/-- The interface `CommentService`: any implementation, with whatever state `ς` it keeps. -/
structure CommentService (ς : Type) where
  GetComments : Context → World ς → (List Comment × Option GoError) × World ς
  GetComment : Context → String → World ς → (Comment × Option GoError) × World ς
  PostComment : Context → Comment → World ς → (Comment × Option GoError) × World ς
  UpdateComment : Context → String → Comment → World ς → (Comment × Option GoError) × World ς
  DeleteComment : Context → String → World ς → Option GoError × World ς

/-- A `*comment.Service` used as a `CommentService`. -/
def ofService {σ : Type} (s : comment.Service σ) : CommentService σ :=
  { GetComments := s.GetComments
    GetComment := s.GetComment
    PostComment := s.PostComment
    UpdateComment := s.UpdateComment
    DeleteComment := s.DeleteComment }

/-- The struct `PostCommentRequest`; every field is tagged `validate:"required"`. -/
structure PostCommentRequest where
  Slug : String
  Author : String
  Body : String
  deriving DecidableEq, Repr

def commentFromPostCommentRequest (u : PostCommentRequest) : Comment :=
  { ID := ""
    Slug := u.Slug
    Author := u.Author
    Body := u.Body }

/-- The struct `UpdateCommentRequest`; every field is tagged `validate:"required"`. -/
structure UpdateCommentRequest where
  Slug : String
  Author : String
  Body : String
  deriving DecidableEq, Repr

def commentFromUpdateCommentRequest (u : UpdateCommentRequest) : Comment :=
  { ID := ""
    Slug := u.Slug
    Author := u.Author
    Body := u.Body }

/-- Modelled from the spec: the struct `Response` is declared in a file of the package that is
not at hand; the spec gives the delete response as an object with the one member `message`. -/
structure Response where
  Message : String
  deriving DecidableEq, Repr

/-- The package `encoding/json`, as far as the handlers use it. `DecodePost body` and
`DecodeUpdate body` stand for `json.NewDecoder(r.Body).Decode(&v)` on a zero `v`: they give `v`
as `Decode` left it and the error `Decode` returned. The `Marshal` members give the JSON text of
a value, or the error of marshalling it. -/
structure JSON where
  DecodePost : String → PostCommentRequest × Option GoError
  DecodeUpdate : String → UpdateCommentRequest × Option GoError
  MarshalComment : Comment → Except GoError String
  MarshalComments : List Comment → Except GoError String
  MarshalResponse : Response → Except GoError String

/-- The call `json.NewEncoder(w).Encode(v)`: marshal `v`; on success write the text followed by
a newline to `w`. Gives the writer afterwards and the error returned. -/
def Encode {α : Type} (marshal : α → Except GoError String) (w : ResponseWriter) (v : α) :
    ResponseWriter × Option GoError :=
  match marshal v with
  | .ok text => (w.Write (text ++ "\n"), none)
  | .error err => (w, some err)

/-- The struct `Handler` (declared in a file that is not at hand), as far as the handlers use
it: the field `Service`. -/
structure Handler (ς : Type) where
  Service : CommentService ς

/-- How a handler call ends: the response writer and the world as the handler left them, and the
value it panicked with, if it did. -/
structure Outcome (ς : Type) where
  w : ResponseWriter
  world : World ς
  panic : Option GoError
  deriving DecidableEq, Repr

namespace Handler

variable {ς : Type}

/-- The tail shared by all handlers: encode `v` onto `w` with `json.NewEncoder(w).Encode(v)`, and
panic with the error when it is not nil. -/
def encodeOrPanic {α : Type} (marshal : α → Except GoError String) (w : ResponseWriter) (v : α)
    (wd : World ς) : Outcome ς :=
  match Encode marshal w v with
  | (w1, some err) => { w := w1, world := wd, panic := some err }
  | (w1, none) => { w := w1, world := wd, panic := none }

/-- The method `(*Handler).PostComment`. -/
def PostComment (h : Handler ς) (js : JSON) (w : ResponseWriter) (r : Request) (wd : World ς) :
    Outcome ς :=
  match js.DecodePost r.Body with
  | (_, some _) => { w := w, world := wd, panic := none }
  | (postCmtReq, none) =>
      match validator.Struct "PostCommentRequest"
          [("Slug", postCmtReq.Slug), ("Author", postCmtReq.Author), ("Body", postCmtReq.Body)] with
      | some err =>
          { w := w.WriteHeader StatusBadRequest, world := wd.logLine .Info err.Error, panic := none }
      | none =>
          match h.Service.PostComment r.ctx (commentFromPostCommentRequest postCmtReq) wd with
          | ((_, some err), wd1) =>
              { w := w, world := wd1.logLine .Error err.Error, panic := none }
          | ((cmt, none), wd1) => encodeOrPanic js.MarshalComment w cmt wd1

/-- The method `(*Handler).GetComments`. -/
def GetComments (h : Handler ς) (js : JSON) (w : ResponseWriter) (r : Request) (wd : World ς) :
    Outcome ς :=
  match h.Service.GetComments r.ctx wd with
  | ((_, some err), wd1) =>
      if errors.Is err comment.ErrFetchingComment then
        { w := w.WriteHeader StatusNotFound, world := wd1, panic := none }
      else
        { w := w.WriteHeader StatusInternalServerError, world := wd1, panic := none }
  | ((cmts, none), wd1) => encodeOrPanic js.MarshalComments w cmts wd1

/-- The method `(*Handler).GetComment`. -/
def GetComment (h : Handler ς) (js : JSON) (w : ResponseWriter) (r : Request) (wd : World ς) :
    Outcome ς :=
  let id := r.var "id"
  if id = "" then
    { w := w.WriteHeader StatusBadRequest, world := wd, panic := none }
  else
    match h.Service.GetComment r.ctx id wd with
    | ((_, some err), wd1) =>
        if errors.Is err comment.ErrFetchingComment then
          { w := w.WriteHeader StatusNotFound, world := wd1, panic := none }
        else
          { w := w.WriteHeader StatusInternalServerError, world := wd1, panic := none }
    | ((cmt, none), wd1) => encodeOrPanic js.MarshalComment w cmt wd1

/-- The method `(*Handler).UpdateComment`. -/
def UpdateComment (h : Handler ς) (js : JSON) (w : ResponseWriter) (r : Request) (wd : World ς) :
    Outcome ς :=
  let commentID := r.var "id"
  match js.DecodeUpdate r.Body with
  | (_, some _) => { w := w, world := wd, panic := none }
  | (updateCmtRequest, none) =>
      match validator.Struct "UpdateCommentRequest"
          [("Slug", updateCmtRequest.Slug), ("Author", updateCmtRequest.Author),
            ("Body", updateCmtRequest.Body)] with
      | some err =>
          { w := w.WriteHeader StatusBadRequest, world := wd.logLine .Info err.Error, panic := none }
      | none =>
          match h.Service.UpdateComment r.ctx commentID
              (commentFromUpdateCommentRequest updateCmtRequest) wd with
          | ((_, some err), wd1) =>
              { w := w, world := wd1.logLine .Error err.Error, panic := none }
          | ((cmt, none), wd1) => encodeOrPanic js.MarshalComment w cmt wd1

/-- The method `(*Handler).DeleteComment`. -/
def DeleteComment (h : Handler ς) (js : JSON) (w : ResponseWriter) (r : Request) (wd : World ς) :
    Outcome ς :=
  let commentID := r.var "id"
  if commentID = "" then
    { w := w.WriteHeader StatusBadRequest, world := wd, panic := none }
  else
    match h.Service.DeleteComment r.ctx commentID wd with
    | (some _, wd1) => { w := w, world := wd1, panic := none }
    | (none, wd1) =>
        encodeOrPanic js.MarshalResponse w { Message := "Successfully Deleted" } wd1

end Handler

/-- One call made through the `CommentService` interface, with its arguments. -/
inductive ServiceCall where
  | GetComments (ctx : Context)
  | GetComment (ctx : Context) (ID : String)
  | PostComment (ctx : Context) (cmt : Comment)
  | UpdateComment (ctx : Context) (ID : String) (newCmt : Comment)
  | DeleteComment (ctx : Context) (ID : String)
  deriving DecidableEq, Repr

/-- Run one operation of a service whose state is `ς` inside a world that also keeps the list of
calls made so far, and add `call` to that list. -/
def recordCall {ς α : Type} (call : ServiceCall) (op : World ς → α × World ς)
    (wd : World (ς × List ServiceCall)) : α × World (ς × List ServiceCall) :=
  match op { state := wd.state.1, log := wd.log } with
  | (res, wd1) => (res, { state := (wd1.state, wd.state.2 ++ [call]), log := wd1.log })

/-- The service `svc` with every call through the interface recorded, in order, next to its
state. It answers exactly as `svc` does. -/
def CommentService.recorded {ς : Type} (svc : CommentService ς) :
    CommentService (ς × List ServiceCall) :=
  { GetComments := fun ctx => recordCall (.GetComments ctx) (svc.GetComments ctx)
    GetComment := fun ctx ID => recordCall (.GetComment ctx ID) (svc.GetComment ctx ID)
    PostComment := fun ctx cmt => recordCall (.PostComment ctx cmt) (svc.PostComment ctx cmt)
    UpdateComment := fun ctx ID newCmt =>
      recordCall (.UpdateComment ctx ID newCmt) (svc.UpdateComment ctx ID newCmt)
    DeleteComment := fun ctx ID => recordCall (.DeleteComment ctx ID) (svc.DeleteComment ctx ID) }

end http

/-! ## Concrete stores, clients and codecs used to evaluate the code -/

namespace sample

open comment (Comment)

/-- A request context. -/
def ctx : Context := { name := "request" }

/-- A world with no hidden state and an empty log. -/
def world : World Unit := { state := (), log := [] }

/-- A database client on a table that lacks the row asked for: `ExecContext` succeeds, and
`Scan` reports `sql.ErrNoRows` and leaves its destination as it was. -/
def emptyTableClient : db.Client Unit :=
  { ExecContext := fun _ _ wd => (none, wd)
    QueryRowScan := fun _ _ _ dest wd => ((dest, some sql.ErrNoRows), wd) }

/-- A database client on a table whose row for every ID has the slug "hello-world", the author
"ana" and a NULL body. -/
def oneRowClient : db.Client Unit :=
  { ExecContext := fun _ _ wd => (none, wd)
    QueryRowScan := fun _ _ args _ wd =>
      ((db.scanCommentRow (args.headD "") (some "hello-world") none (some "ana"), none), wd) }

/-- A store on top of a `Database`: `GetComment` is `Database.GetComment`; every other
method reports `db.ErrNotImplemented` and changes nothing. -/
def readOneStore (d : db.Database Unit) : comment.Store Unit :=
  { GetComments := fun _ wd => (([], some db.ErrNotImplemented), wd)
    GetComment := d.GetComment
    PostComment := fun _ _ wd => ((Comment.zero, some db.ErrNotImplemented), wd)
    UpdateComment := fun _ _ _ wd => ((Comment.zero, some db.ErrNotImplemented), wd)
    DeleteComment := fun _ _ wd => (some db.ErrNotImplemented, wd)
    Ping := fun _ wd => (none, wd) }

/-- A store held in memory: the state is the list of comments, the ID of a new comment is the
decimal count of the comments stored before it. -/
def memoryStore : comment.Store (List Comment) :=
  { GetComments := fun _ wd => ((wd.state, none), wd)
    GetComment := fun _ ID wd =>
      match wd.state.find? (fun c => c.ID == ID) with
      | some c => ((c, none), wd)
      | none => ((Comment.zero, some sql.ErrNoRows), wd)
    PostComment := fun _ cmt wd =>
      let stored : Comment := { cmt with ID := toString wd.state.length }
      ((stored, none), { wd with state := wd.state ++ [stored] })
    UpdateComment := fun _ ID cmt wd =>
      if wd.state.any (fun c => c.ID == ID) then
        let stored : Comment := { cmt with ID := ID }
        ((stored, none),
          { wd with state := wd.state.map (fun c => if c.ID == ID then stored else c) })
      else ((Comment.zero, some sql.ErrNoRows), wd)
    DeleteComment := fun _ ID wd =>
      if wd.state.any (fun c => c.ID == ID) then
        (none, { wd with state := wd.state.filter (fun c => !(c.ID == ID)) })
      else (some sql.ErrNoRows, wd)
    Ping := fun _ wd => (none, wd) }

/-- The error `io.ErrUnexpectedEOF`, which `Decode` returns for a JSON text that stops short. -/
def unexpectedEOF : GoError := .new "io.ErrUnexpectedEOF" "unexpected EOF"

/-- A JSON codec for the texts used below. Decoding knows two well-formed bodies, the object with
slug "hello-world", author "ana" and body "first post", and the same object without its body
member (the field then keeps its zero value); every other text is refused as the truncated text
of one opening brace is. Marshalling writes the members in the order of the struct fields and
the texts as they are, which is the JSON of texts that need no escaping. -/
def json : http.JSON :=
  { DecodePost := fun body =>
      if body = "\x7b\"slug\":\"hello-world\",\"author\":\"ana\",\"body\":\"first post\"\x7d" then
        ({ Slug := "hello-world", Author := "ana", Body := "first post" }, none)
      else if body = "\x7b\"slug\":\"hello-world\",\"author\":\"ana\"\x7d" then
        ({ Slug := "hello-world", Author := "ana", Body := "" }, none)
      else ({ Slug := "", Author := "", Body := "" }, some unexpectedEOF)
    DecodeUpdate := fun body =>
      if body = "\x7b\"slug\":\"hello-world\",\"author\":\"ana\",\"body\":\"first post\"\x7d" then
        ({ Slug := "hello-world", Author := "ana", Body := "first post" }, none)
      else if body = "\x7b\"slug\":\"hello-world\",\"author\":\"ana\"\x7d" then
        ({ Slug := "hello-world", Author := "ana", Body := "" }, none)
      else ({ Slug := "", Author := "", Body := "" }, some unexpectedEOF)
    MarshalComment := fun c =>
      .ok ("\x7b\"id\":\"" ++ c.ID ++ "\",\"slug\":\"" ++ c.Slug ++ "\",\"body\":\"" ++ c.Body
        ++ "\",\"author\":\"" ++ c.Author ++ "\"\x7d")
    MarshalComments := fun cs =>
      .ok ("[" ++ String.intercalate "," (cs.map fun c =>
        "\x7b\"id\":\"" ++ c.ID ++ "\",\"slug\":\"" ++ c.Slug ++ "\",\"body\":\"" ++ c.Body
          ++ "\",\"author\":\"" ++ c.Author ++ "\"\x7d") ++ "]")
    MarshalResponse := fun v => .ok ("\x7b\"message\":\"" ++ v.Message ++ "\"\x7d") }

/-- The well-formed body with all three members. -/
def fullBody : String :=
  "\x7b\"slug\":\"hello-world\",\"author\":\"ana\",\"body\":\"first post\"\x7d"

/-- The well-formed body that lacks the member body. -/
def noBodyMember : String := "\x7b\"slug\":\"hello-world\",\"author\":\"ana\"\x7d"

/-- The malformed body: one opening brace. -/
def truncatedBody : String := "\x7b"

/-- The service over the in-memory store, with its calls recorded. -/
def recordedMemoryService : http.CommentService (List Comment × List http.ServiceCall) :=
  (http.ofService (comment.NewService memoryStore)).recorded

/-- The service over the store whose PostComment, UpdateComment and DeleteComment report
`db.ErrNotImplemented`, with its calls recorded. -/
def recordedFailingService : http.CommentService (Unit × List http.ServiceCall) :=
  (http.ofService (comment.NewService (readOneStore { Client := emptyTableClient }))).recorded

end sample

/-! ## Lemmas shared by the statements -/

namespace db

theorem foldl_step_eq_append_map (cmts : List CommentRow) (acc : List comment.Comment) :
    cmts.foldl convertCommentRowToComments.step acc = acc ++ cmts.map convertCommentRowToComment := by
  induction cmts generalizing acc with
  | nil => simp
  | cons c rest ih =>
      simp only [List.foldl_cons, List.map_cons, ih]
      simp [convertCommentRowToComments.step, convertCommentRowToComment]

/-- A nullable field as `Scan` fills it: NULL comes with `Valid = false` and the empty text, a
text comes with `Valid = true` and that text. -/
theorem scanNullString_cases (v : Option String) :
    (v = none ∧ (sql.scanNullString v).Valid = false ∧ (sql.scanNullString v).String = "")
      ∨ (∃ t : String, v = some t ∧ (sql.scanNullString v).Valid = true
          ∧ (sql.scanNullString v).String = t) := by
  cases v with
  | none => exact Or.inl ⟨rfl, rfl, rfl⟩
  | some t => exact Or.inr ⟨t, rfl, rfl, rfl⟩

end db

namespace validator

/-- On a struct of three required string fields, `Struct` returns nil exactly when none of the
three is the empty string. -/
theorem Struct_three_eq_none_iff (typeName n1 n2 n3 v1 v2 v3 : String) :
    Struct typeName [(n1, v1), (n2, v2), (n3, v3)] = none ↔ v1 ≠ "" ∧ v2 ≠ "" ∧ v3 ≠ "" := by
  unfold Struct
  by_cases h1 : v1 = "" <;> by_cases h2 : v2 = "" <;> by_cases h3 : v3 = "" <;>
    simp [List.filter, h1, h2, h3]

end validator

namespace http

/-- Writing a header on a writer that has none sets the status and keeps the body. -/
theorem WriteHeader_of_unwritten (w : ResponseWriter) (code : Nat) (hw : w.status = none) :
    w.WriteHeader code = { status := some code, body := w.body } := by
  cases w with
  | mk status body =>
      simp only at hw
      subst hw
      rfl

/-- The tail of a handler leaves the world as it was, and leaves the writer and the error as
`Encode` gave them. -/
theorem Handler.encodeOrPanic_eq {ς α : Type} (marshal : α → Except GoError String)
    (w : ResponseWriter) (v : α) (wd : World ς) :
    Handler.encodeOrPanic marshal w v wd
      = { w := (Encode marshal w v).1, world := wd, panic := (Encode marshal w v).2 } := by
  unfold Handler.encodeOrPanic
  rcases Encode marshal w v with ⟨w1, _ | err⟩ <;> rfl

/-- Encoding a value that marshals to `text` onto a writer with no header written yet: the header
is written with 200 and the body gains `text` and a newline. -/
theorem Encode_of_ok {α : Type} (marshal : α → Except GoError String) (w : ResponseWriter)
    (v : α) (text : String) (hw : w.status = none) (hm : marshal v = .ok text) :
    Encode marshal w v = ({ status := some 200, body := w.body ++ (text ++ "\n") }, none) := by
  unfold Encode
  rw [hm]
  simp only [ResponseWriter.Write, WriteHeader_of_unwritten w _ hw]
  rfl

/-- A body that fails to decode makes `PostComment` return at once: writer and world are as
they were. -/
theorem Handler.PostComment_of_decode_error {ς : Type} (h : Handler ς) (js : JSON)
    (w : ResponseWriter) (r : Request) (wd : World ς) (req : PostCommentRequest) (e : GoError)
    (hd : js.DecodePost r.Body = (req, some e)) :
    h.PostComment js w r wd = { w := w, world := wd, panic := none } := by
  unfold Handler.PostComment
  rw [hd]

/-- A body that fails to decode makes `UpdateComment` return at once: writer and world are as
they were. -/
theorem Handler.UpdateComment_of_decode_error {ς : Type} (h : Handler ς) (js : JSON)
    (w : ResponseWriter) (r : Request) (wd : World ς) (req : UpdateCommentRequest) (e : GoError)
    (hd : js.DecodeUpdate r.Body = (req, some e)) :
    h.UpdateComment js w r wd = { w := w, world := wd, panic := none } := by
  unfold Handler.UpdateComment
  simp only [hd]

/-- The sibling path: in `GetComments` a service error that is not `ErrFetchingComment` is
answered with the status 500. -/
theorem Handler.GetComments_of_other_error {ς : Type} (h : Handler ς) (js : JSON)
    (w : ResponseWriter) (r : Request) (wd wd1 : World ς) (cmts : List comment.Comment) (e : GoError)
    (hw : w.status = none) (hs : h.Service.GetComments r.ctx wd = ((cmts, some e), wd1))
    (he : errors.Is e comment.ErrFetchingComment = false) :
    (h.GetComments js w r wd).w.sentStatus = 500 := by
  unfold Handler.GetComments
  rw [hs]
  simp only [he, Bool.false_eq_true, if_false]
  rw [WriteHeader_of_unwritten w _ hw]
  rfl

/-- The sibling path: in `GetComment` a service error that is not `ErrFetchingComment` is
answered with the status 500. -/
theorem Handler.GetComment_of_other_error {ς : Type} (h : Handler ς) (js : JSON)
    (w : ResponseWriter) (r : Request) (wd wd1 : World ς) (cmt : comment.Comment) (e : GoError)
    (hw : w.status = none) (hid : r.var "id" ≠ "")
    (hs : h.Service.GetComment r.ctx (r.var "id") wd = ((cmt, some e), wd1))
    (he : errors.Is e comment.ErrFetchingComment = false) :
    (h.GetComment js w r wd).w.sentStatus = 500 := by
  unfold Handler.GetComment
  simp only [hid, if_false]
  rw [hs]
  simp only [he, Bool.false_eq_true, if_false]
  rw [WriteHeader_of_unwritten w _ hw]
  rfl

end http

/-! ## The statements -/

open comment (Comment Service)

/-- C1 (as stated, refuted at a concrete input): the store built on a database whose table lacks
row "42" reports the no-rows condition, an error that is `sql.ErrNoRows`; `Service.GetComment`
answers with the FetchFailed sentinel `ErrFetchingComment`, not with `ErrNoCommentFound`. -/
theorem C1_counterexample_noRows_gives_ErrFetchingComment :
    ((sample.readOneStore ⟨sample.emptyTableClient⟩).GetComment sample.ctx "42" sample.world).1.2
        = some (.errorf "an error occurred fetching a comment by uuid: " sql.ErrNoRows "")
      ∧ errors.Is (.errorf "an error occurred fetching a comment by uuid: " sql.ErrNoRows "")
          sql.ErrNoRows = true
      ∧ ((comment.NewService (sample.readOneStore ⟨sample.emptyTableClient⟩)).GetComment
          sample.ctx "42" sample.world).1.2 = some comment.ErrFetchingComment
      ∧ ((comment.NewService (sample.readOneStore ⟨sample.emptyTableClient⟩)).GetComment
          sample.ctx "42" sample.world).1.2 ≠ some comment.ErrNoCommentFound := by
  refine ⟨rfl, by decide, rfl, by decide⟩

/-- C1 (amended): for every store, context, ID and world, when the store's GetComment
reports any error `e` (the no-rows condition included), `Service.GetComment` returns the zero
Comment together with exactly `ErrFetchingComment`, whatever `e` is, and what it returns is not
`ErrNoCommentFound`. -/
theorem C1_GetComment_maps_every_store_error_to_ErrFetchingComment {σ : Type} (s : Service σ)
    (ctx : Context) (ID : String) (wd : World σ) (e : GoError)
    (h : (s.Store.GetComment ctx ID wd).1.2 = some e) :
    (s.GetComment ctx ID wd).1 = (Comment.zero, some comment.ErrFetchingComment)
      ∧ (s.GetComment ctx ID wd).1.2 ≠ some comment.ErrNoCommentFound := by
  unfold Service.GetComment
  rcases hres : s.Store.GetComment ctx ID wd with ⟨⟨c, err⟩, wd1⟩
  rw [hres] at h
  simp only at h
  subst h
  refine ⟨rfl, ?_⟩
  show some comment.ErrFetchingComment ≠ some comment.ErrNoCommentFound
  decide

/-- Witness for C1 (amended): the database store on the table that lacks row "42". -/
theorem C1_GetComment_maps_every_store_error_to_ErrFetchingComment_witness :
    ((comment.NewService (sample.readOneStore ⟨sample.emptyTableClient⟩)).GetComment
          sample.ctx "42" sample.world).1 = (Comment.zero, some comment.ErrFetchingComment)
      ∧ ((comment.NewService (sample.readOneStore ⟨sample.emptyTableClient⟩)).GetComment
          sample.ctx "42" sample.world).1.2 ≠ some comment.ErrNoCommentFound :=
  C1_GetComment_maps_every_store_error_to_ErrFetchingComment
    (comment.NewService (sample.readOneStore ⟨sample.emptyTableClient⟩)) sample.ctx "42"
    sample.world (.errorf "an error occurred fetching a comment by uuid: " sql.ErrNoRows "") rfl

/-- C2: for every store, context and world: when the store's GetComments returns an error,
whichever it is and whatever list comes with it, `Service.GetComments` returns the empty list
and exactly `ErrFetchingComment`; when the store returns a list and a nil error,
`Service.GetComments` returns that list and a nil error. -/
theorem C2_GetComments_sentinel_or_same_list {σ : Type} (s : Service σ) (ctx : Context)
    (wd : World σ) :
    (∀ (cmts : List Comment) (e : GoError), (s.Store.GetComments ctx wd).1 = (cmts, some e) →
        (s.GetComments ctx wd).1 = ([], some comment.ErrFetchingComment)
          ∧ (s.GetComments ctx wd).1.1.length = 0)
      ∧ (∀ cmts : List Comment, (s.Store.GetComments ctx wd).1 = (cmts, none) →
        (s.GetComments ctx wd).1 = (cmts, none)) := by
  unfold Service.GetComments
  rcases hres : s.Store.GetComments ctx wd with ⟨⟨c, err⟩, wd1⟩
  constructor
  · intro cmts e h
    simp only [Prod.mk.injEq] at h
    obtain ⟨-, rfl⟩ := h
    exact ⟨rfl, rfl⟩
  · intro cmts h
    simp only [Prod.mk.injEq] at h
    obtain ⟨rfl, rfl⟩ := h
    rfl

/-- Witness for C2: a store whose GetComments fails, and the in-memory store holding one
comment. -/
theorem C2_GetComments_sentinel_or_same_list_witness :
    (((sample.readOneStore ⟨sample.emptyTableClient⟩).GetComments sample.ctx sample.world).1
          = ([], some db.ErrNotImplemented)
        ∧ ((comment.NewService (sample.readOneStore ⟨sample.emptyTableClient⟩)).GetComments
          sample.ctx sample.world).1 = ([], some comment.ErrFetchingComment))
      ∧ ((sample.memoryStore.GetComments sample.ctx
            { state := [⟨"0", "hello-world", "first post", "ana"⟩], log := [] }).1
          = ([⟨"0", "hello-world", "first post", "ana"⟩], none)
        ∧ ((comment.NewService sample.memoryStore).GetComments sample.ctx
            { state := [⟨"0", "hello-world", "first post", "ana"⟩], log := [] }).1
          = ([⟨"0", "hello-world", "first post", "ana"⟩], none)) :=
  ⟨⟨rfl, ((C2_GetComments_sentinel_or_same_list
      (comment.NewService (sample.readOneStore ⟨sample.emptyTableClient⟩)) sample.ctx
      sample.world).1 [] db.ErrNotImplemented rfl).1⟩,
    ⟨rfl, (C2_GetComments_sentinel_or_same_list (comment.NewService sample.memoryStore) sample.ctx
      { state := [⟨"0", "hello-world", "first post", "ana"⟩], log := [] }).2
      [⟨"0", "hello-world", "first post", "ana"⟩] rfl⟩⟩

/-- C3: for every store, context, world and input: when the store's PostComment fails with any
error `e`, `Service.PostComment` returns the zero Comment and exactly `ErrPostingComment`; when
the store's UpdateComment fails with any `e`, `Service.UpdateComment` returns the zero Comment
and exactly `ErrUpdatingComment`; when the store succeeds, its Comment is returned unchanged with
a nil error. -/
theorem C3_Post_and_Update_sentinel_or_same_comment {σ : Type} (s : Service σ) (ctx : Context)
    (ID : String) (cmt : Comment) (wd : World σ) :
    (∀ (c : Comment) (e : GoError), (s.Store.PostComment ctx cmt wd).1 = (c, some e) →
        (s.PostComment ctx cmt wd).1 = (Comment.zero, some comment.ErrPostingComment))
      ∧ (∀ c : Comment, (s.Store.PostComment ctx cmt wd).1 = (c, none) →
        (s.PostComment ctx cmt wd).1 = (c, none))
      ∧ (∀ (c : Comment) (e : GoError), (s.Store.UpdateComment ctx ID cmt wd).1 = (c, some e) →
        (s.UpdateComment ctx ID cmt wd).1 = (Comment.zero, some comment.ErrUpdatingComment))
      ∧ (∀ c : Comment, (s.Store.UpdateComment ctx ID cmt wd).1 = (c, none) →
        (s.UpdateComment ctx ID cmt wd).1 = (c, none)) := by
  unfold Service.PostComment Service.UpdateComment
  rcases hp : s.Store.PostComment ctx cmt wd with ⟨⟨c1, err1⟩, wd1⟩
  rcases hu : s.Store.UpdateComment ctx ID cmt wd with ⟨⟨c2, err2⟩, wd2⟩
  refine ⟨?_, ?_, ?_, ?_⟩
  · intro c e h
    simp only [Prod.mk.injEq] at h
    obtain ⟨-, rfl⟩ := h
    rfl
  · intro c h
    simp only [Prod.mk.injEq] at h
    obtain ⟨rfl, rfl⟩ := h
    rfl
  · intro c e h
    simp only [Prod.mk.injEq] at h
    obtain ⟨-, rfl⟩ := h
    rfl
  · intro c h
    simp only [Prod.mk.injEq] at h
    obtain ⟨rfl, rfl⟩ := h
    rfl

/-- Witness for C3: a store whose PostComment and UpdateComment fail, and the in-memory store
holding comment "0". -/
theorem C3_Post_and_Update_sentinel_or_same_comment_witness :
    (((comment.NewService (sample.readOneStore ⟨sample.emptyTableClient⟩)).PostComment sample.ctx
          ⟨"", "hello-world", "first post", "ana"⟩ sample.world).1
        = (Comment.zero, some comment.ErrPostingComment))
      ∧ (((comment.NewService sample.memoryStore).PostComment sample.ctx
          ⟨"", "hello-world", "first post", "ana"⟩ { state := [], log := [] }).1
        = (⟨"0", "hello-world", "first post", "ana"⟩, none))
      ∧ (((comment.NewService (sample.readOneStore ⟨sample.emptyTableClient⟩)).UpdateComment
          sample.ctx "0" ⟨"", "hello-world", "second post", "ana"⟩ sample.world).1
        = (Comment.zero, some comment.ErrUpdatingComment))
      ∧ (((comment.NewService sample.memoryStore).UpdateComment sample.ctx "0"
          ⟨"", "hello-world", "second post", "ana"⟩
          { state := [⟨"0", "hello-world", "first post", "ana"⟩], log := [] }).1
        = (⟨"0", "hello-world", "second post", "ana"⟩, none)) :=
  ⟨(C3_Post_and_Update_sentinel_or_same_comment
      (comment.NewService (sample.readOneStore ⟨sample.emptyTableClient⟩)) sample.ctx "0"
      ⟨"", "hello-world", "first post", "ana"⟩ sample.world).1 Comment.zero
      db.ErrNotImplemented rfl,
    (C3_Post_and_Update_sentinel_or_same_comment (comment.NewService sample.memoryStore)
      sample.ctx "0" ⟨"", "hello-world", "first post", "ana"⟩ { state := [], log := [] }).2.1
      ⟨"0", "hello-world", "first post", "ana"⟩ rfl,
    (C3_Post_and_Update_sentinel_or_same_comment
      (comment.NewService (sample.readOneStore ⟨sample.emptyTableClient⟩)) sample.ctx "0"
      ⟨"", "hello-world", "second post", "ana"⟩ sample.world).2.2.1 Comment.zero
      db.ErrNotImplemented rfl,
    (C3_Post_and_Update_sentinel_or_same_comment (comment.NewService sample.memoryStore)
      sample.ctx "0" ⟨"", "hello-world", "second post", "ana"⟩
      { state := [⟨"0", "hello-world", "first post", "ana"⟩], log := [] }).2.2.2
      ⟨"0", "hello-world", "second post", "ana"⟩ (by decide)⟩

/-- C4: for every store, context, ID and world, `Service.DeleteComment` returns exactly what the
store's DeleteComment returns for that ID, and leaves the world exactly as the store left it:
nil when the store returns nil, and the store's own error `e`, not mapped and not wrapped, when
the store returns `e`. -/
theorem C4_DeleteComment_passes_store_result_through {σ : Type} (s : Service σ) (ctx : Context)
    (ID : String) (wd : World σ) :
    s.DeleteComment ctx ID wd = s.Store.DeleteComment ctx ID wd
      ∧ ((s.Store.DeleteComment ctx ID wd).1 = none ↔ (s.DeleteComment ctx ID wd).1 = none)
      ∧ ∀ e : GoError, (s.Store.DeleteComment ctx ID wd).1 = some e ↔
          (s.DeleteComment ctx ID wd).1 = some e :=
  ⟨rfl, Iff.rfl, fun _ => Iff.rfl⟩

/-- C5: for every CommentRow that reaches the translation, that is every row that `Scan` fills
from an id and three nullable column values, `convertCommentRowToComment` yields a Comment whose
ID equals the ID of the row and in which each of Slug, Body and Author is the empty string
whenever the corresponding field of the row is NULL (its `Valid` flag is false) and is the text
of the row whenever that field is not NULL; NULL columns and only they give `Valid = false`. -/
theorem C5_convertCommentRowToComment_null_is_empty_string (id : String)
    (slug body author : Option String) :
    (db.convertCommentRowToComment (db.scanCommentRow id slug body author)).ID
        = (db.scanCommentRow id slug body author).ID
      ∧ ((db.scanCommentRow id slug body author).Slug.Valid = false →
          (db.convertCommentRowToComment (db.scanCommentRow id slug body author)).Slug = "")
      ∧ ((db.scanCommentRow id slug body author).Body.Valid = false →
          (db.convertCommentRowToComment (db.scanCommentRow id slug body author)).Body = "")
      ∧ ((db.scanCommentRow id slug body author).Author.Valid = false →
          (db.convertCommentRowToComment (db.scanCommentRow id slug body author)).Author = "")
      ∧ (∀ t : String, slug = some t →
          (db.scanCommentRow id slug body author).Slug.Valid = true
            ∧ (db.convertCommentRowToComment (db.scanCommentRow id slug body author)).Slug = t)
      ∧ (∀ t : String, body = some t →
          (db.scanCommentRow id slug body author).Body.Valid = true
            ∧ (db.convertCommentRowToComment (db.scanCommentRow id slug body author)).Body = t)
      ∧ (∀ t : String, author = some t →
          (db.scanCommentRow id slug body author).Author.Valid = true
            ∧ (db.convertCommentRowToComment (db.scanCommentRow id slug body author)).Author = t)
      ∧ (slug = none → (db.scanCommentRow id slug body author).Slug.Valid = false)
      ∧ (body = none → (db.scanCommentRow id slug body author).Body.Valid = false)
      ∧ (author = none → (db.scanCommentRow id slug body author).Author.Valid = false) := by
  refine ⟨rfl, ?_, ?_, ?_, ?_, ?_, ?_, ?_, ?_, ?_⟩
  · intro hv
    rcases db.scanNullString_cases slug with ⟨-, -, hs⟩ | ⟨t, -, ht, -⟩
    · exact hs
    · exact absurd (ht.symm.trans hv) (by decide)
  · intro hv
    rcases db.scanNullString_cases body with ⟨-, -, hs⟩ | ⟨t, -, ht, -⟩
    · exact hs
    · exact absurd (ht.symm.trans hv) (by decide)
  · intro hv
    rcases db.scanNullString_cases author with ⟨-, -, hs⟩ | ⟨t, -, ht, -⟩
    · exact hs
    · exact absurd (ht.symm.trans hv) (by decide)
  · intro t h
    subst h
    exact ⟨rfl, rfl⟩
  · intro t h
    subst h
    exact ⟨rfl, rfl⟩
  · intro t h
    subst h
    exact ⟨rfl, rfl⟩
  · intro h
    subst h
    rfl
  · intro h
    subst h
    rfl
  · intro h
    subst h
    rfl

/-- Witness for C5: the row that `Scan` fills from the id "7", the slug "hello-world", a NULL
body and the author "ana"; its body is NULL and is translated to the empty string, its slug is
not NULL and is translated to "hello-world". -/
theorem C5_convertCommentRowToComment_null_is_empty_string_witness :
    ((db.scanCommentRow "7" (some "hello-world") none (some "ana")).Body.Valid = false
        ∧ (db.convertCommentRowToComment
            (db.scanCommentRow "7" (some "hello-world") none (some "ana"))).Body = "")
      ∧ ((db.scanCommentRow "7" (some "hello-world") none (some "ana")).Slug.Valid = true
        ∧ (db.convertCommentRowToComment
            (db.scanCommentRow "7" (some "hello-world") none (some "ana"))).Slug = "hello-world") :=
  ⟨⟨rfl, (C5_convertCommentRowToComment_null_is_empty_string "7" (some "hello-world") none
      (some "ana")).2.2.1 rfl⟩,
    (C5_convertCommentRowToComment_null_is_empty_string "7" (some "hello-world") none
      (some "ana")).2.2.2.2.1 "hello-world" rfl⟩

/-- C10: for every list of rows, the empty one included, `convertCommentRowToComments` returns
the element-wise image of the list under `convertCommentRowToComment`: the result has the
length of the input and its i-th element is the translation of the i-th row, for every index i
(both sides have no i-th element when i is out of range). -/
theorem C10_convertCommentRowToComments_is_map (cmts : List db.CommentRow) :
    db.convertCommentRowToComments cmts = cmts.map db.convertCommentRowToComment
      ∧ (db.convertCommentRowToComments cmts).length = cmts.length
      ∧ ∀ i : Nat, (db.convertCommentRowToComments cmts)[i]?
          = (cmts[i]?).map db.convertCommentRowToComment := by
  have h : db.convertCommentRowToComments cmts = cmts.map db.convertCommentRowToComment := by
    unfold db.convertCommentRowToComments
    rw [db.foldl_step_eq_append_map]
    simp
  refine ⟨h, ?_, ?_⟩
  · rw [h, List.length_map]
  · intro i
    rw [h, List.getElem?_map]

/-- C6 (the code evaluated at the failing input): on the malformed body of one opening brace,
`Handler.PostComment` and `Handler.UpdateComment` return with no call made to the service, and
with the response writer untouched: no header is written, so the status sent is 200, not a 4xx
status. -/
theorem C6_malformed_body_makes_no_call_and_writes_no_status :
    (http.Handler.PostComment ⟨sample.recordedMemoryService⟩ sample.json http.ResponseWriter.fresh
          { ctx := sample.ctx, vars := [], Body := sample.truncatedBody }
          { state := ([], []), log := [] })
        = { w := http.ResponseWriter.fresh, world := { state := ([], []), log := [] },
            panic := none }
      ∧ (http.Handler.UpdateComment ⟨sample.recordedMemoryService⟩ sample.json
          http.ResponseWriter.fresh
          { ctx := sample.ctx, vars := [("id", "0")], Body := sample.truncatedBody }
          { state := ([⟨"0", "hello-world", "first post", "ana"⟩], []), log := [] })
        = { w := http.ResponseWriter.fresh,
            world := { state := ([⟨"0", "hello-world", "first post", "ana"⟩], []), log := [] },
            panic := none }
      ∧ http.ResponseWriter.fresh.sentStatus = 200 := by
  refine ⟨?_, ?_, rfl⟩ <;> decide

/-- C7: for the PostComment and UpdateComment handlers, every service (its calls recorded),
every writer with no header written yet and every request whose body decodes without error to
`req` (a member that is missing from the body leaves its field empty): when at least one of
Slug, Author, Body of `req` is empty, the status sent is 400 and the list of service calls is as
it was; when all three are non-empty, exactly one call is added to the list, the call of
PostComment (for update: of UpdateComment with the route variable id) with the request context
and a Comment carrying those three values. -/
theorem C7_required_fields_gate_the_service_call {ς : Type} (svc : http.CommentService ς)
    (js : http.JSON) (w : http.ResponseWriter) (r : http.Request)
    (wd : World (ς × List http.ServiceCall)) (hw : w.status = none) :
    (∀ req : http.PostCommentRequest, js.DecodePost r.Body = (req, none) →
        ((req.Slug = "" ∨ req.Author = "" ∨ req.Body = "") →
          (http.Handler.PostComment ⟨svc.recorded⟩ js w r wd).w.sentStatus = 400
            ∧ (http.Handler.PostComment ⟨svc.recorded⟩ js w r wd).world.state.2 = wd.state.2)
        ∧ ((req.Slug ≠ "" ∧ req.Author ≠ "" ∧ req.Body ≠ "") →
          (http.Handler.PostComment ⟨svc.recorded⟩ js w r wd).world.state.2
            = wd.state.2 ++ [.PostComment r.ctx
                { ID := "", Slug := req.Slug, Body := req.Body, Author := req.Author }]))
      ∧ (∀ req : http.UpdateCommentRequest, js.DecodeUpdate r.Body = (req, none) →
        ((req.Slug = "" ∨ req.Author = "" ∨ req.Body = "") →
          (http.Handler.UpdateComment ⟨svc.recorded⟩ js w r wd).w.sentStatus = 400
            ∧ (http.Handler.UpdateComment ⟨svc.recorded⟩ js w r wd).world.state.2 = wd.state.2)
        ∧ ((req.Slug ≠ "" ∧ req.Author ≠ "" ∧ req.Body ≠ "") →
          (http.Handler.UpdateComment ⟨svc.recorded⟩ js w r wd).world.state.2
            = wd.state.2 ++ [.UpdateComment r.ctx (r.var "id")
                { ID := "", Slug := req.Slug, Body := req.Body, Author := req.Author }])) := by
  constructor
  · intro req hd
    have hiff := validator.Struct_three_eq_none_iff "PostCommentRequest" "Slug" "Author" "Body"
      req.Slug req.Author req.Body
    constructor
    · intro hempty
      rcases hv : validator.Struct "PostCommentRequest"
          [("Slug", req.Slug), ("Author", req.Author), ("Body", req.Body)] with _ | err
      · have hne := hiff.mp hv
        rcases hempty with h | h | h
        · exact absurd h hne.1
        · exact absurd h hne.2.1
        · exact absurd h hne.2.2
      · simp only [http.Handler.PostComment, hd, hv, http.WriteHeader_of_unwritten w _ hw]
        exact ⟨rfl, rfl⟩
    · intro hfull
      have hv := hiff.mpr hfull
      rcases hres : svc.PostComment r.ctx (http.commentFromPostCommentRequest req)
          { state := wd.state.1, log := wd.log } with ⟨⟨c, _ | err⟩, wd1⟩
      · simp only [http.Handler.PostComment, hd, hv, http.CommentService.recorded,
          http.recordCall, hres, http.Handler.encodeOrPanic_eq]
        rfl
      · simp only [http.Handler.PostComment, hd, hv, http.CommentService.recorded,
          http.recordCall, hres]
        rfl
  · intro req hd
    have hiff := validator.Struct_three_eq_none_iff "UpdateCommentRequest" "Slug" "Author" "Body"
      req.Slug req.Author req.Body
    constructor
    · intro hempty
      rcases hv : validator.Struct "UpdateCommentRequest"
          [("Slug", req.Slug), ("Author", req.Author), ("Body", req.Body)] with _ | err
      · have hne := hiff.mp hv
        rcases hempty with h | h | h
        · exact absurd h hne.1
        · exact absurd h hne.2.1
        · exact absurd h hne.2.2
      · simp only [http.Handler.UpdateComment, hd, hv, http.WriteHeader_of_unwritten w _ hw]
        exact ⟨rfl, rfl⟩
    · intro hfull
      have hv := hiff.mpr hfull
      rcases hres : svc.UpdateComment r.ctx (r.var "id")
          (http.commentFromUpdateCommentRequest req)
          { state := wd.state.1, log := wd.log } with ⟨⟨c, _ | err⟩, wd1⟩
      · simp only [http.Handler.UpdateComment, hd, hv, http.CommentService.recorded,
          http.recordCall, hres, http.Handler.encodeOrPanic_eq]
        rfl
      · simp only [http.Handler.UpdateComment, hd, hv, http.CommentService.recorded,
          http.recordCall, hres]
        rfl

/-- Witness for C7: over the in-memory service, the body without its body member is answered
with 400 and no call, and the body with all three members leads to exactly one call, for
PostComment and for UpdateComment alike. -/
theorem C7_required_fields_gate_the_service_call_witness :
    (http.ResponseWriter.fresh.status = none
        ∧ sample.json.DecodePost sample.noBodyMember
          = ({ Slug := "hello-world", Author := "ana", Body := "" }, none)
        ∧ (http.Handler.PostComment ⟨(http.ofService (comment.NewService sample.memoryStore)).recorded⟩
            sample.json http.ResponseWriter.fresh
            { ctx := sample.ctx, vars := [], Body := sample.noBodyMember }
            { state := ([], []), log := [] }).w.sentStatus = 400
        ∧ (http.Handler.PostComment ⟨(http.ofService (comment.NewService sample.memoryStore)).recorded⟩
            sample.json http.ResponseWriter.fresh
            { ctx := sample.ctx, vars := [], Body := sample.noBodyMember }
            { state := ([], []), log := [] }).world.state.2 = [])
      ∧ (sample.json.DecodePost sample.fullBody
          = ({ Slug := "hello-world", Author := "ana", Body := "first post" }, none)
        ∧ (http.Handler.PostComment ⟨(http.ofService (comment.NewService sample.memoryStore)).recorded⟩
            sample.json http.ResponseWriter.fresh
            { ctx := sample.ctx, vars := [], Body := sample.fullBody }
            { state := ([], []), log := [] }).world.state.2
          = [] ++ [.PostComment sample.ctx
              { ID := "", Slug := "hello-world", Body := "first post", Author := "ana" }])
      ∧ (sample.json.DecodeUpdate sample.fullBody
          = ({ Slug := "hello-world", Author := "ana", Body := "first post" }, none)
        ∧ (http.Handler.UpdateComment ⟨(http.ofService (comment.NewService sample.memoryStore)).recorded⟩
            sample.json http.ResponseWriter.fresh
            { ctx := sample.ctx, vars := [("id", "0")], Body := sample.fullBody }
            { state := ([], []), log := [] }).world.state.2
          = [] ++ [.UpdateComment sample.ctx "0"
              { ID := "", Slug := "hello-world", Body := "first post", Author := "ana" }]) :=
  ⟨⟨rfl, by decide,
      (((C7_required_fields_gate_the_service_call
        (http.ofService (comment.NewService sample.memoryStore)) sample.json
        http.ResponseWriter.fresh { ctx := sample.ctx, vars := [], Body := sample.noBodyMember }
        { state := ([], []), log := [] } rfl).1
        { Slug := "hello-world", Author := "ana", Body := "" } (by decide)).1
        (Or.inr (Or.inr rfl)))⟩,
    ⟨by decide,
      ((C7_required_fields_gate_the_service_call
        (http.ofService (comment.NewService sample.memoryStore)) sample.json
        http.ResponseWriter.fresh { ctx := sample.ctx, vars := [], Body := sample.fullBody }
        { state := ([], []), log := [] } rfl).1
        { Slug := "hello-world", Author := "ana", Body := "first post" } (by decide)).2
        ⟨by decide, by decide, by decide⟩⟩,
    ⟨by decide,
      ((C7_required_fields_gate_the_service_call
        (http.ofService (comment.NewService sample.memoryStore)) sample.json
        http.ResponseWriter.fresh
        { ctx := sample.ctx, vars := [("id", "0")], Body := sample.fullBody }
        { state := ([], []), log := [] } rfl).2
        { Slug := "hello-world", Author := "ana", Body := "first post" } (by decide)).2
        ⟨by decide, by decide, by decide⟩⟩⟩

/-- C8: for the GetComments and GetComment handlers (for GetComment: a request whose route
variable id is not empty, so that the service is called), every service and every writer with no
header written yet: when the service returns an error that is `ErrFetchingComment`, the status
sent is 404 and nothing is added to the body; when the service returns no error, the writer is
left exactly as `json.NewEncoder(w).Encode` leaves it for the very list or Comment the service
returned, and when that value marshals to `text` the response is the status 200 with `text` and
a newline added to the body. -/
theorem C8_fetch_error_is_404_and_success_is_encoded {ς : Type} (h : http.Handler ς)
    (js : http.JSON) (w : http.ResponseWriter) (r : http.Request) (wd : World ς)
    (hw : w.status = none) :
    (∀ (cmts : List Comment) (e : GoError) (wd1 : World ς),
        h.Service.GetComments r.ctx wd = ((cmts, some e), wd1) →
        errors.Is e comment.ErrFetchingComment = true →
        (h.GetComments js w r wd).w.sentStatus = 404 ∧ (h.GetComments js w r wd).w.body = w.body)
      ∧ (∀ (cmts : List Comment) (wd1 : World ς),
        h.Service.GetComments r.ctx wd = ((cmts, none), wd1) →
        (h.GetComments js w r wd).w = (http.Encode js.MarshalComments w cmts).1
          ∧ ∀ text : String, js.MarshalComments cmts = .ok text →
              (h.GetComments js w r wd).w = { status := some 200, body := w.body ++ (text ++ "\n") })
      ∧ (r.var "id" ≠ "" →
        (∀ (cmt : Comment) (e : GoError) (wd1 : World ς),
          h.Service.GetComment r.ctx (r.var "id") wd = ((cmt, some e), wd1) →
          errors.Is e comment.ErrFetchingComment = true →
          (h.GetComment js w r wd).w.sentStatus = 404 ∧ (h.GetComment js w r wd).w.body = w.body)
        ∧ (∀ (cmt : Comment) (wd1 : World ς),
          h.Service.GetComment r.ctx (r.var "id") wd = ((cmt, none), wd1) →
          (h.GetComment js w r wd).w = (http.Encode js.MarshalComment w cmt).1
            ∧ ∀ text : String, js.MarshalComment cmt = .ok text →
                (h.GetComment js w r wd).w
                  = { status := some 200, body := w.body ++ (text ++ "\n") })) := by
  refine ⟨?_, ?_, ?_⟩
  · intro cmts e wd1 hs he
    have hout : (h.GetComments js w r wd).w = w.WriteHeader http.StatusNotFound := by
      simp only [http.Handler.GetComments, hs, he, if_true]
    rw [hout, http.WriteHeader_of_unwritten w _ hw]
    exact ⟨rfl, rfl⟩
  · intro cmts wd1 hs
    have hout : (h.GetComments js w r wd).w = (http.Encode js.MarshalComments w cmts).1 := by
      simp only [http.Handler.GetComments, hs, http.Handler.encodeOrPanic_eq]
    refine ⟨hout, ?_⟩
    intro text hm
    rw [hout, http.Encode_of_ok js.MarshalComments w cmts text hw hm]
  · intro hid
    constructor
    · intro cmt e wd1 hs he
      have hout : (h.GetComment js w r wd).w = w.WriteHeader http.StatusNotFound := by
        simp only [http.Handler.GetComment, hid, if_false, hs, he, if_true]
      rw [hout, http.WriteHeader_of_unwritten w _ hw]
      exact ⟨rfl, rfl⟩
    · intro cmt wd1 hs
      have hout : (h.GetComment js w r wd).w = (http.Encode js.MarshalComment w cmt).1 := by
        simp only [http.Handler.GetComment, hid, if_false, hs, http.Handler.encodeOrPanic_eq]
      refine ⟨hout, ?_⟩
      intro text hm
      rw [hout, http.Encode_of_ok js.MarshalComment w cmt text hw hm]

/-- Witness for C8: the GetComments handler over a service whose store fails answers 404 with an
empty body; the GetComment handler over the database store answers the request for id "7" with
the status 200 and the JSON text of the Comment the service returned. -/
theorem C8_fetch_error_is_404_and_success_is_encoded_witness :
    (http.ResponseWriter.fresh.status = none
        ∧ errors.Is comment.ErrFetchingComment comment.ErrFetchingComment = true
        ∧ (http.Handler.GetComments
            ⟨http.ofService (comment.NewService (sample.readOneStore ⟨sample.emptyTableClient⟩))⟩
            sample.json http.ResponseWriter.fresh { ctx := sample.ctx, vars := [], Body := "" }
            sample.world).w.sentStatus = 404
        ∧ (http.Handler.GetComments
            ⟨http.ofService (comment.NewService (sample.readOneStore ⟨sample.emptyTableClient⟩))⟩
            sample.json http.ResponseWriter.fresh { ctx := sample.ctx, vars := [], Body := "" }
            sample.world).w.body = http.ResponseWriter.fresh.body)
      ∧ (http.Request.var { ctx := sample.ctx, vars := [("id", "7")], Body := "" } "id" ≠ ""
        ∧ (http.Handler.GetComment
            ⟨http.ofService (comment.NewService (sample.readOneStore ⟨sample.oneRowClient⟩))⟩
            sample.json http.ResponseWriter.fresh
            { ctx := sample.ctx, vars := [("id", "7")], Body := "" } sample.world).w
          = { status := some 200,
              body := http.ResponseWriter.fresh.body ++
                ("\x7b\"id\":\"7\",\"slug\":\"hello-world\",\"body\":\"\",\"author\":\"ana\"\x7d"
                  ++ "\n") }) :=
  ⟨⟨rfl, by decide,
      (C8_fetch_error_is_404_and_success_is_encoded
        ⟨http.ofService (comment.NewService (sample.readOneStore ⟨sample.emptyTableClient⟩))⟩
        sample.json http.ResponseWriter.fresh { ctx := sample.ctx, vars := [], Body := "" }
        sample.world rfl).1 [] comment.ErrFetchingComment
        (sample.world.logLine .Error
          ("an error occured fetching the comments: " ++ db.ErrNotImplemented.Error))
        rfl (by decide)⟩,
    ⟨by decide,
      (((C8_fetch_error_is_404_and_success_is_encoded
        ⟨http.ofService (comment.NewService (sample.readOneStore ⟨sample.oneRowClient⟩))⟩
        sample.json http.ResponseWriter.fresh
        { ctx := sample.ctx, vars := [("id", "7")], Body := "" } sample.world rfl).2.2
        (by decide)).2
        { ID := "7", Slug := "hello-world", Body := "", Author := "ana" } sample.world rfl).2
        "\x7b\"id\":\"7\",\"slug\":\"hello-world\",\"body\":\"\",\"author\":\"ana\"\x7d"
        (congrArg Except.ok (by decide))⟩⟩

/-- C9 (the code evaluated at failing inputs): over a service whose store reports
`db.ErrNotImplemented` for PostComment, UpdateComment and DeleteComment, the service returns
`ErrPostingComment`, `ErrUpdatingComment` and the raw `db.ErrNotImplemented`, none of which is
`ErrFetchingComment`; the PostComment, UpdateComment and DeleteComment handlers, called with a
well-formed and complete body and the id "0", make their one service call and then return with
the response writer untouched, so the status sent is 200 and not 500. -/
theorem C9_post_update_delete_errors_leave_status_unwritten :
    ((sample.recordedFailingService.PostComment sample.ctx
          { ID := "", Slug := "hello-world", Body := "first post", Author := "ana" }
          { state := ((), []), log := [] }).1.2 = some comment.ErrPostingComment
        ∧ errors.Is comment.ErrPostingComment comment.ErrFetchingComment = false
        ∧ (http.Handler.PostComment ⟨sample.recordedFailingService⟩ sample.json
            http.ResponseWriter.fresh
            { ctx := sample.ctx, vars := [], Body := sample.fullBody }
            { state := ((), []), log := [] }).w = http.ResponseWriter.fresh
        ∧ (http.Handler.PostComment ⟨sample.recordedFailingService⟩ sample.json
            http.ResponseWriter.fresh
            { ctx := sample.ctx, vars := [], Body := sample.fullBody }
            { state := ((), []), log := [] }).world.state.2
          = [.PostComment sample.ctx
              { ID := "", Slug := "hello-world", Body := "first post", Author := "ana" }])
      ∧ ((sample.recordedFailingService.UpdateComment sample.ctx "0"
          { ID := "", Slug := "hello-world", Body := "first post", Author := "ana" }
          { state := ((), []), log := [] }).1.2 = some comment.ErrUpdatingComment
        ∧ errors.Is comment.ErrUpdatingComment comment.ErrFetchingComment = false
        ∧ (http.Handler.UpdateComment ⟨sample.recordedFailingService⟩ sample.json
            http.ResponseWriter.fresh
            { ctx := sample.ctx, vars := [("id", "0")], Body := sample.fullBody }
            { state := ((), []), log := [] }).w = http.ResponseWriter.fresh
        ∧ (http.Handler.UpdateComment ⟨sample.recordedFailingService⟩ sample.json
            http.ResponseWriter.fresh
            { ctx := sample.ctx, vars := [("id", "0")], Body := sample.fullBody }
            { state := ((), []), log := [] }).world.state.2
          = [.UpdateComment sample.ctx "0"
              { ID := "", Slug := "hello-world", Body := "first post", Author := "ana" }])
      ∧ ((sample.recordedFailingService.DeleteComment sample.ctx "0"
          { state := ((), []), log := [] }).1 = some db.ErrNotImplemented
        ∧ errors.Is db.ErrNotImplemented comment.ErrFetchingComment = false
        ∧ (http.Handler.DeleteComment ⟨sample.recordedFailingService⟩ sample.json
            http.ResponseWriter.fresh
            { ctx := sample.ctx, vars := [("id", "0")], Body := "" }
            { state := ((), []), log := [] }).w = http.ResponseWriter.fresh
        ∧ (http.Handler.DeleteComment ⟨sample.recordedFailingService⟩ sample.json
            http.ResponseWriter.fresh
            { ctx := sample.ctx, vars := [("id", "0")], Body := "" }
            { state := ((), []), log := [] }).world.state.2 = [.DeleteComment sample.ctx "0"])
      ∧ http.ResponseWriter.fresh.sentStatus = 200
      ∧ http.ResponseWriter.fresh.sentStatus ≠ 500 := by
  refine ⟨⟨?_, ?_, ?_, ?_⟩, ⟨?_, ?_, ?_, ?_⟩, ⟨?_, ?_, ?_, ?_⟩, ?_, ?_⟩ <;> decide

end GoRestApi
